import Mathlib

/-!
Shallow embedding of `src/llamaquery_api.py` (the `/llamaquery` FastAPI
endpoint) and proofs about the claims of its specification.

The endpoint is embedded as a pure function from
  - the process environment (the two API keys),
  - a behaviour model of the external router/retrieval dependency, and
  - the request body (not-valid-JSON and valid-JSON-but-not-an-object
    bodies are distinguished from JSON-object bodies, since both of the
    former make a pre-`try` line raise)
to a handler outcome together with an ordered trace of observable events:
environment-variable reads, `LlamaCloudIndex` constructions, the write to
the process-wide `Settings.llm`, the routing-dependency call, the
retrieval-dependency call (stamped with the `httpx` timeout profile it
runs under), and backoff waits (the event vocabulary contains waits even
though the code never sleeps, so retry claims can be counted).
-/

namespace LlamaQueryApi

/-- Python truthiness of an optional string: `None` and `""` are falsy
(`if not query: ...`, `if not llama_api_key or not openai_api_key: ...`). -/
def pyTruthy : Option String → Bool
  | none => false
  | some s => s != ""

/-- Characters stripped by Python `str.strip()` with no argument. -/
def isPySpace (c : Char) : Bool :=
  c == ' ' || c == '\t' || c == '\n' || c == '\r' ||
    c == Char.ofNat 11 || c == Char.ofNat 12

/-- Python `str.strip()`: drop leading and trailing whitespace
(`response.response.strip()` at line 120). -/
def pyStrip (s : String) : String :=
  String.mk (((s.data.dropWhile isPySpace).reverse.dropWhile isPySpace).reverse)

/-- Filter operator vocabulary of the specification. The endpoint code
builds no filter predicates at all; the type exists so that the trace can
record, for each retrieval call, which filter predicates (none) the call
carried, and so the filter claims can be stated. -/
inductive FilterOp where
  | EQ | NE | CONTAINS | LIKE | IN
deriving DecidableEq, Repr

/-- A (field, operator, value) filter predicate as the specification
describes them. -/
structure FilterPredicate where
  field : String
  op : FilterOp
  value : String
deriving DecidableEq, Repr

/-- One item of a caller-supplied filter payload
(`{key, value, operator?}` in the specification). -/
structure FilterItem where
  key : Option String
  value : Option String
  operator : Option String
deriving DecidableEq, Repr

/-- The parsed JSON request body. The endpoint reads only
`data.get("query")` (line 42); a `filters` field is carried so that the
claims about filter payloads can be stated, but the code never reads it. -/
structure Body where
  query : Option String
  filters : Option (List FilterItem)
deriving DecidableEq, Repr

/-- The inbound request body as `await request.json()` (line 41) and
`data.get("query")` (line 42) see it. `invalid` is a body that is not
valid JSON: `request.json()` raises `JSONDecodeError`. `nonObject ty` is
a body that parses as JSON but is not a JSON object (a list, string,
number, boolean or null, with Python type name `ty`): `request.json()`
succeeds but `data.get("query")` raises `AttributeError`. Both raises
happen before the `try` block at line 56. `obj` is a JSON object. -/
inductive RequestBody where
  | invalid
  | nonObject (ty : String)
  | obj (data : Body)
deriving DecidableEq, Repr

/-- Process environment: the two API keys read by `os.getenv`
(lines 47-48). `none` models an unset variable. -/
structure Env where
  llama_api_key : Option String
  openai_api_key : Option String
deriving DecidableEq, Repr

/-- An `httpx.Timeout` profile. Line 53:
`httpx.Timeout(connect=10.0, read=120.0, write=10.0, pool=10.0)`. -/
structure TimeoutProfile where
  connect : Nat
  read : Nat
  write : Nat
  pool : Nat
deriving DecidableEq, Repr

/-- The timeout profile the endpoint builds its `httpx.AsyncClient` with. -/
def clientTimeout : TimeoutProfile := ⟨10, 120, 10, 10⟩

/-- Observable events of one request, in program order. -/
inductive Event where
  | getenv (name : String)
  | indexConstruction (name : String) (timeout : TimeoutProfile)
  | settingsLlmWrite (model : String)
  | routeCall (query : String)
  | retrieveCall (target : String) (timeout : TimeoutProfile)
      (filter : Option (List FilterPredicate))
  | wait (units : Nat)
deriving DecidableEq, Repr

/-- Metadata of a dependency response; the endpoint inspects only the
`selectorResult.selected_tool` entry (lines 113-115). -/
structure Metadata where
  selected_tool : Option String
deriving DecidableEq, Repr

/-- A response dictionary returned by the endpoint: either the error
shape (lines 45, 51, 125) or the success shape (lines 117-122). -/
inductive Response where
  | error (msg : String)
  | success (query : String) (selected_index : String)
      (response : String) (metadata : Metadata)
deriving DecidableEq, Repr

/-- The dictionary keys of a response, in the order the code writes them. -/
def Response.fields : Response → List String
  | .error _ => ["error"]
  | .success _ _ _ _ => ["query", "selected_index", "response", "metadata"]

/-- Outcome of one handler invocation: either a returned response, or an
exception that escaped the handler to the transport layer. -/
inductive HandlerResult where
  | escaped (msg : String)
  | returned (r : Response)
deriving DecidableEq, Repr

/-- Outcome of the routing dependency's target selection. -/
inductive RouteOutcome where
  | selected (tool : String)
  | routeFailure (msg : String)
deriving DecidableEq, Repr

/-- Outcome of one retrieval attempt against a target; `transient` marks
the remote-protocol-error / read-timeout failure class. -/
inductive RetrieveOutcome where
  | ok (text : String)
  | fail (transient : Bool) (msg : String)
deriving DecidableEq, Repr

/-- Modelled from the spec: the black-box router/retrieval dependency
contract (spec §4.4, §6) behind `RouterQueryEngine.query`, which is
external library code. `route` is the routing dependency's selection for
the request; `retrieve n t` is the outcome of the `n`-th retrieval attempt
against target `t`; `reportsSelection` says whether the dependency places
its selection into the response metadata under
`selectorResult.selected_tool`. -/
structure DepBehavior where
  route : RouteOutcome
  retrieve : Nat → String → RetrieveOutcome
  reportsSelection : Bool

/-- Modelled from the spec: one call to `router_engine.query` (line 112).
The routing dependency selects one target or fails; on selection the
retrieval dependency is invoked once, only against that target, under the
client's timeout profile and with no filter expression (the code builds
`index.as_retriever()` with no filters, line 31); any failure raises.
Returns the response text and metadata, plus the dependency-call events. -/
def routerEngineQuery (dep : DepBehavior) (tp : TimeoutProfile) (q : String) :
    Except String (String × Metadata) × List Event :=
  match dep.route with
  | .routeFailure msg => (.error msg, [.routeCall q])
  | .selected t =>
    match dep.retrieve 0 t with
    | .fail _ msg => (.error msg, [.routeCall q, .retrieveCall t tp none])
    | .ok text =>
        (.ok (text, ⟨if dep.reportsSelection then some t else none⟩),
         [.routeCall q, .retrieveCall t tp none])

/-- The `/llamaquery` endpoint handler (lines 39-125). A body that is
not valid JSON makes `await request.json()` (line 41) raise, and a body
that is valid JSON but not an object makes `data.get("query")` (line 42)
raise; both lines sit outside the `try` block starting at line 56, so
those exceptions escape the handler. Otherwise:
missing/empty query returns the input error (44-45);
the two keys are read from the environment (47-48) and checked (50-51);
the two `LlamaCloudIndex` objects are built over the timed-out client
(53-74); the process-wide `Settings.llm` is assigned (79); the router
engine runs once with no retry (112); its exception is caught and wrapped
(124-125); on success the four-field dictionary is returned (117-122)
with `selected_index` defaulting to "Unknown" (113-115). -/
def llamaquery (env : Env) (dep : DepBehavior) (body : RequestBody) :
    HandlerResult × List Event :=
  match body with
  | .invalid => (.escaped "JSONDecodeError: request body is not valid JSON", [])
  | .nonObject ty =>
      (.escaped ("AttributeError: \x27" ++ ty ++
        "\x27 object has no attribute \x27get\x27"), [])
  | .obj data =>
    if !(pyTruthy data.query) then
      (.returned (.error "Missing \x27query\x27 in request body"), [])
    else
      let q := data.query.getD ""
      let ev0 : List Event := [.getenv "LLAMA_API_KEY", .getenv "OPENAI_API_KEY"]
      if !(pyTruthy env.llama_api_key) || !(pyTruthy env.openai_api_key) then
        (.returned (.error "Missing LLAMA_API_KEY or OPENAI_API_KEY in environment"),
         ev0)
      else
        let ev1 := ev0 ++
          [.indexConstruction "SharePoint Deal Pipeline" clientTimeout,
           .indexConstruction "SharePoint Thematic Work" clientTimeout,
           .settingsLlmWrite "gpt-4o-mini"]
        match routerEngineQuery dep clientTimeout q with
        | (.error msg, evq) =>
            (.returned (.error ("Router query failed: " ++ msg)), ev1 ++ evq)
        | (.ok (text, md), evq) =>
            (.returned (.success q (md.selected_tool.getD "Unknown") (pyStrip text) md),
             ev1 ++ evq)

/-- Is this event an invocation of the retrieval dependency? -/
def isRetrieveCall : Event → Bool
  | .retrieveCall _ _ _ => true
  | _ => false

/-- Is this event a backoff wait? -/
def isWaitEvent : Event → Bool
  | .wait _ => true
  | _ => false

/-- Is this event a call onto the retrieval or routing dependencies
(index construction or remote invocation)? -/
def isDependencyCall : Event → Bool
  | .indexConstruction _ _ => true
  | .routeCall _ => true
  | .retrieveCall _ _ _ => true
  | _ => false

/-- Number of retrieval-dependency invocations in a trace. -/
def retrieveCount (tr : List Event) : Nat := (tr.filter isRetrieveCall).length

/-- Number of backoff waits in a trace. -/
def waitCount (tr : List Event) : Nat := (tr.filter isWaitEvent).length

/-- Number of retrieval/routing dependency calls in a trace. -/
def dependencyCallCount (tr : List Event) : Nat :=
  (tr.filter isDependencyCall).length

/-- All filter predicates carried by retrieval calls of a trace. -/
def tracePredicates (tr : List Event) : List FilterPredicate :=
  tr.foldr
    (fun e acc =>
      match e with
      | Event.retrieveCall _ _ (some ps) => ps ++ acc
      | _ => acc)
    []

/-- The dictionary keys of a handler outcome (empty when the handler
escaped with an exception instead of returning). -/
def responseFields : HandlerResult → List String
  | .escaped _ => []
  | .returned r => r.fields

/-- A non-empty string is Python-truthy. -/
theorem pyTruthy_some_of_ne {s : String} (h : s ≠ "") :
    pyTruthy (some s) = true := by
  simp [pyTruthy, h]

/-- An environment holding both API keys. -/
def envOK : Env := ⟨some "llama-key", some "openai-key"⟩

/-- A dependency that routes to "thematic", retrieves successfully on
every attempt, and reports its selection in the metadata. -/
def depOK : DepBehavior :=
  ⟨.selected "thematic", fun _ _ => .ok "Thematic answer.", true⟩

/-- A well-formed request body with a non-empty query and no filters. -/
def okBody : Body := ⟨some "What is the deal size?", none⟩

/-- An environment in which LLAMA_API_KEY is unset. -/
def envMissingKey : Env := ⟨none, some "openai-key"⟩

/-- A dependency that retrieves successfully but does not place its
selection into the response metadata. -/
def depNoReport : DepBehavior :=
  ⟨.selected "deals", fun _ _ => .ok "Deal is 5M.", false⟩

/-- C1: a request whose query string is absent or empty returns the input
error `Missing 'query' in request body` immediately, with an empty event
trace: zero calls to the retrieval or routing dependencies, no index
construction, no remote invocation. -/
theorem c1_empty_query_immediate_error (env : Env) (dep : DepBehavior) (b : Body)
    (h : b.query = none ∨ b.query = some "") :
    llamaquery env dep (.obj b) =
      (.returned (.error "Missing \x27query\x27 in request body"), []) ∧
    dependencyCallCount (llamaquery env dep (.obj b)).2 = 0 := by
  rcases h with h | h <;>
    simp [llamaquery, pyTruthy, h, dependencyCallCount]

/-- C1 witness: the theorem applied to a concrete request with an absent
query. -/
theorem c1_witness :
    llamaquery envOK depOK (.obj ⟨none, none⟩) =
      (.returned (.error "Missing \x27query\x27 in request body"), []) ∧
    dependencyCallCount (llamaquery envOK depOK (.obj ⟨none, none⟩)).2 = 0 :=
  c1_empty_query_immediate_error envOK depOK ⟨none, none⟩ (Or.inl rfl)

/-- C2 counterexample: on a concrete successful request the response
dictionary's keys are `query`, `selected_index`, `response`, `metadata`
(lines 117-122) — the success shape contains neither a `text` nor a
`citations` field, refuting the claimed success shape. -/
theorem c2_counterexample :
    responseFields (llamaquery envOK depOK (.obj okBody)).1 =
      ["query", "selected_index", "response", "metadata"] ∧
    "text" ∉ responseFields (llamaquery envOK depOK (.obj okBody)).1 ∧
    "citations" ∉ responseFields (llamaquery envOK depOK (.obj okBody)).1 := by
  decide

/-- C2 amended: every returned response is exactly one of two shapes: the
error shape with the single field `error`, or the success shape with
exactly the fields `query`, `selected_index`, `response`, `metadata`; a
response contains the `error` field exactly when it is the error shape,
so error and success fields are never mixed. -/
theorem c2_two_shapes (env : Env) (dep : DepBehavior) (body : RequestBody)
    (r : Response) (tr : List Event)
    (h : llamaquery env dep body = (.returned r, tr)) :
    (r.fields = ["error"] ∨
      r.fields = ["query", "selected_index", "response", "metadata"]) ∧
    ("error" ∈ r.fields ↔ r.fields = ["error"]) := by
  have hshape : r.fields = ["error"] ∨
      r.fields = ["query", "selected_index", "response", "metadata"] := by
    rcases body with _ | ty | data
    · simp [llamaquery] at h
    · simp [llamaquery] at h
    · cases hq : pyTruthy data.query
      · simp [llamaquery, hq] at h
        obtain ⟨rfl, -⟩ := h
        left; rfl
      · cases hk1 : pyTruthy env.llama_api_key
        · simp [llamaquery, hq, hk1] at h
          obtain ⟨rfl, -⟩ := h
          left; rfl
        · cases hk2 : pyTruthy env.openai_api_key
          · simp [llamaquery, hq, hk1, hk2] at h
            obtain ⟨rfl, -⟩ := h
            left; rfl
          · rcases hr : dep.route with t | msg
            · rcases hf : dep.retrieve 0 t with text | ⟨b, msg⟩
              · simp [llamaquery, routerEngineQuery, hq, hk1, hk2, hr, hf] at h
                obtain ⟨rfl, -⟩ := h
                right; rfl
              · simp [llamaquery, routerEngineQuery, hq, hk1, hk2, hr, hf] at h
                obtain ⟨rfl, -⟩ := h
                left; rfl
            · simp [llamaquery, routerEngineQuery, hq, hk1, hk2, hr] at h
              obtain ⟨rfl, -⟩ := h
              left; rfl
  refine ⟨hshape, ?_⟩
  rcases hshape with hs | hs <;> rw [hs] <;> simp

/-- C2 witness: the amended theorem applied to a concrete successful
request. -/
theorem c2_witness :
    ((Response.success "What is the deal size?" "thematic" "Thematic answer."
        ⟨some "thematic"⟩).fields = ["error"] ∨
      (Response.success "What is the deal size?" "thematic" "Thematic answer."
        ⟨some "thematic"⟩).fields =
        ["query", "selected_index", "response", "metadata"]) ∧
    ("error" ∈ (Response.success "What is the deal size?" "thematic"
        "Thematic answer." ⟨some "thematic"⟩).fields ↔
      (Response.success "What is the deal size?" "thematic" "Thematic answer."
        ⟨some "thematic"⟩).fields = ["error"]) :=
  c2_two_shapes envOK depOK (.obj okBody)
    (Response.success "What is the deal size?" "thematic" "Thematic answer."
      ⟨some "thematic"⟩)
    [Event.getenv "LLAMA_API_KEY", Event.getenv "OPENAI_API_KEY",
     Event.indexConstruction "SharePoint Deal Pipeline" clientTimeout,
     Event.indexConstruction "SharePoint Thematic Work" clientTimeout,
     Event.settingsLlmWrite "gpt-4o-mini",
     Event.routeCall "What is the deal size?",
     Event.retrieveCall "thematic" clientTimeout none]
    (by decide)

/-- A dependency whose retrieval fails with a transient (read-timeout)
failure on every attempt. -/
def depTransientFail : DepBehavior :=
  ⟨.selected "thematic", fun _ _ => .fail true "ReadTimeout: timed out", true⟩

/-- C3 counterexample: with a retrieval dependency failing transiently on
every attempt, the request ends in the wrapped dependency error after
exactly 1 invocation of the retrieval dependency and 0 intervening waits
— not the claimed 3 invocations with 2 waits; the code has no retry loop
and no backoff sleep. -/
theorem c3_counterexample :
    (llamaquery envOK depTransientFail (.obj okBody)).1 =
      .returned (.error "Router query failed: ReadTimeout: timed out") ∧
    retrieveCount (llamaquery envOK depTransientFail (.obj okBody)).2 = 1 ∧
    waitCount (llamaquery envOK depTransientFail (.obj okBody)).2 = 0 ∧
    ¬(retrieveCount (llamaquery envOK depTransientFail (.obj okBody)).2 = 3 ∧
      waitCount (llamaquery envOK depTransientFail (.obj okBody)).2 = 2) := by
  decide

/-- C3 amended: the endpoint performs no retry: when retrieval fails —
with any failure class, transient or not — the request ends with the
dependency error `Router query failed: ` followed by the failure's
description, the retrieval dependency having been invoked exactly once,
with zero backoff waits. -/
theorem c3_no_retry_on_retrieval_failure (env : Env) (dep : DepBehavior)
    (b : Body) (q t msg : String) (tb : Bool)
    (hq : b.query = some q) (hqne : q ≠ "")
    (hk1 : pyTruthy env.llama_api_key = true)
    (hk2 : pyTruthy env.openai_api_key = true)
    (hr : dep.route = .selected t)
    (hf : dep.retrieve 0 t = .fail tb msg) :
    (llamaquery env dep (.obj b)).1 =
      .returned (.error ("Router query failed: " ++ msg)) ∧
    retrieveCount (llamaquery env dep (.obj b)).2 = 1 ∧
    waitCount (llamaquery env dep (.obj b)).2 = 0 := by
  simp [llamaquery, routerEngineQuery, hq, pyTruthy_some_of_ne hqne, hk1, hk2,
    hr, hf, retrieveCount, waitCount, isRetrieveCall, isWaitEvent]

/-- C3 witness: the amended theorem applied to a concrete
always-transiently-failing dependency. -/
theorem c3_witness :
    (llamaquery envOK depTransientFail (.obj okBody)).1 =
      .returned (.error "Router query failed: ReadTimeout: timed out") ∧
    retrieveCount (llamaquery envOK depTransientFail (.obj okBody)).2 = 1 ∧
    waitCount (llamaquery envOK depTransientFail (.obj okBody)).2 = 0 :=
  c3_no_retry_on_retrieval_failure envOK depTransientFail okBody
    "What is the deal size?" "thematic" "ReadTimeout: timed out" true
    rfl (by decide) rfl rfl rfl rfl

/-- C4: every invocation of the retrieval dependency in any request's
trace runs under the client timeout profile whose connection-phase cap is
10 time-units and whose read-phase cap is 120 time-units (line 53). -/
theorem c4_retrieval_timeout (env : Env) (dep : DepBehavior)
    (body : RequestBody) (t : String) (tp : TimeoutProfile)
    (f : Option (List FilterPredicate))
    (h : Event.retrieveCall t tp f ∈ (llamaquery env dep body).2) :
    tp.connect = 10 ∧ tp.read = 120 := by
  have htp : tp = clientTimeout := by
    rcases body with _ | ty | data
    · simp [llamaquery] at h
    · simp [llamaquery] at h
    · cases hq : pyTruthy data.query
      · simp [llamaquery, hq] at h
      · cases hk1 : pyTruthy env.llama_api_key
        · simp [llamaquery, hq, hk1] at h
        · cases hk2 : pyTruthy env.openai_api_key
          · simp [llamaquery, hq, hk1, hk2] at h
          · rcases hr : dep.route with t' | msg
            · rcases hf : dep.retrieve 0 t' with text | ⟨b, msg⟩ <;>
                · simp [llamaquery, routerEngineQuery, hq, hk1, hk2, hr, hf] at h
                  exact h.2.1
            · simp [llamaquery, routerEngineQuery, hq, hk1, hk2, hr] at h
  rw [htp]
  exact ⟨rfl, rfl⟩

/-- C4 witness: the theorem applied to the retrieval call of a concrete
successful request. -/
theorem c4_witness : clientTimeout.connect = 10 ∧ clientTimeout.read = 120 :=
  c4_retrieval_timeout envOK depOK (.obj okBody) "thematic" clientTimeout
    none (by decide)

/-- C5: when the routing dependency fails, the request ends in the
explicit error `Router query failed: ` followed by the failure's
description, and no retrieval is performed at all — in particular the
system never falls back to querying a default index. -/
theorem c5_routing_failure_explicit_error (env : Env) (dep : DepBehavior)
    (b : Body) (q msg : String)
    (hq : b.query = some q) (hqne : q ≠ "")
    (hk1 : pyTruthy env.llama_api_key = true)
    (hk2 : pyTruthy env.openai_api_key = true)
    (hr : dep.route = .routeFailure msg) :
    (llamaquery env dep (.obj b)).1 =
      .returned (.error ("Router query failed: " ++ msg)) ∧
    retrieveCount (llamaquery env dep (.obj b)).2 = 0 := by
  simp [llamaquery, routerEngineQuery, hq, pyTruthy_some_of_ne hqne, hk1, hk2,
    hr, retrieveCount, isRetrieveCall]

/-- A dependency whose routing selection fails. -/
def depRouteFail : DepBehavior :=
  ⟨.routeFailure "selector returned no result",
   fun _ _ => .ok "never reached", true⟩

/-- C5 witness: the theorem applied to a concrete failing router. -/
theorem c5_witness :
    (llamaquery envOK depRouteFail (.obj okBody)).1 =
      .returned (.error "Router query failed: selector returned no result") ∧
    retrieveCount (llamaquery envOK depRouteFail (.obj okBody)).2 = 0 :=
  c5_routing_failure_explicit_error envOK depRouteFail okBody
    "What is the deal size?" "selector returned no result"
    rfl (by decide) rfl rfl rfl

/-- C6 counterexample: a successful routed request — the routing
dependency selected "deals" and retrieval ran only against "deals" — in
which the dependency response's metadata lacks the
`selectorResult.selected_tool` entry, so the response's `selected_index`
is the string "Unknown" (lines 113-115), not the chosen target: the
response fails to report which target was selected. -/
theorem c6_counterexample :
    (llamaquery envOK depNoReport (.obj okBody)).1 =
      .returned (.success "What is the deal size?" "Unknown"
        "Deal is 5M." ⟨none⟩) ∧
    Event.retrieveCall "deals" clientTimeout none ∈
      (llamaquery envOK depNoReport (.obj okBody)).2 ∧
    "Unknown" ≠ "deals" := by
  decide

/-- C6 amended: on a successful routed request whose dependency reports
its selection in the response metadata, the response is the success shape
whose `selected_index` field names the tool the routing dependency
selected, every retrieval call of the trace targets exactly that tool,
and exactly one retrieval call is made; when the metadata entry is
absent, `selected_index` is "Unknown" instead of the chosen target. -/
theorem c6_reports_selected_index (env : Env) (dep : DepBehavior) (b : Body)
    (q t text : String)
    (hq : b.query = some q) (hqne : q ≠ "")
    (hk1 : pyTruthy env.llama_api_key = true)
    (hk2 : pyTruthy env.openai_api_key = true)
    (hr : dep.route = .selected t)
    (hok : dep.retrieve 0 t = .ok text)
    (hrep : dep.reportsSelection = true) :
    (llamaquery env dep (.obj b)).1 =
      .returned (.success q t (pyStrip text) ⟨some t⟩) ∧
    (∀ t' tp f, Event.retrieveCall t' tp f ∈ (llamaquery env dep (.obj b)).2 →
      t' = t) ∧
    retrieveCount (llamaquery env dep (.obj b)).2 = 1 := by
  refine ⟨?_, ?_, ?_⟩
  · simp [llamaquery, routerEngineQuery, hq, pyTruthy_some_of_ne hqne, hk1,
      hk2, hr, hok, hrep]
  · intro t' tp f hmem
    simp [llamaquery, routerEngineQuery, hq, pyTruthy_some_of_ne hqne, hk1,
      hk2, hr, hok, hrep] at hmem
    exact hmem.1
  · simp [llamaquery, routerEngineQuery, hq, pyTruthy_some_of_ne hqne, hk1,
      hk2, hr, hok, hrep, retrieveCount, isRetrieveCall]

/-- C6 witness: the theorem applied to a concrete request routed to
"thematic". -/
theorem c6_witness :
    (llamaquery envOK depOK (.obj okBody)).1 =
      .returned (.success "What is the deal size?" "thematic"
        (pyStrip "Thematic answer.") ⟨some "thematic"⟩) ∧
    (∀ t' tp f,
      Event.retrieveCall t' tp f ∈ (llamaquery envOK depOK (.obj okBody)).2 →
        t' = "thematic") ∧
    retrieveCount (llamaquery envOK depOK (.obj okBody)).2 = 1 :=
  c6_reports_selected_index envOK depOK okBody
    "What is the deal size?" "thematic" "Thematic answer."
    rfl (by decide) rfl rfl rfl rfl rfl

/-- A request body carrying a filter item whose value contains a space. -/
def spacedFilterBody : Body :=
  ⟨some "What is the deal size?",
   some [⟨some "company", some "Blue Ocean", some "eq"⟩]⟩

/-- C7 counterexample: for a concrete request whose filter payload holds
the usable item (company, "Blue Ocean") — a value containing a space —
the retrieval that the request performs carries no filter predicates at
all: neither the original-value predicate nor its %20-substituted variant
appears, because the endpoint never reads the filters field and builds no
filter expression. -/
theorem c7_counterexample :
    (llamaquery envOK depOK (.obj spacedFilterBody)).2.filter isRetrieveCall =
      [Event.retrieveCall "thematic" clientTimeout none] ∧
    FilterPredicate.mk "company" FilterOp.EQ "Blue Ocean" ∉
      tracePredicates (llamaquery envOK depOK (.obj spacedFilterBody)).2 ∧
    FilterPredicate.mk "company" FilterOp.EQ "Blue%20Ocean" ∉
      tracePredicates (llamaquery envOK depOK (.obj spacedFilterBody)).2 := by
  decide

/-- C7 amended: the endpoint ignores caller-supplied filter payloads
entirely: the handler's outcome and trace are identical for any two
filter payloads with the same query, and every retrieval call it performs
carries no filter expression, so no normalized predicate (original or
%20-substituted) is ever constructed. -/
theorem c7_filters_ignored :
    (∀ (env : Env) (dep : DepBehavior) (q : Option String)
      (f1 f2 : Option (List FilterItem)),
      llamaquery env dep (.obj ⟨q, f1⟩) = llamaquery env dep (.obj ⟨q, f2⟩)) ∧
    (∀ (env : Env) (dep : DepBehavior) (body : RequestBody) (t : String)
      (tp : TimeoutProfile) (f : Option (List FilterPredicate)),
      Event.retrieveCall t tp f ∈ (llamaquery env dep body).2 → f = none) := by
  constructor
  · intro env dep q f1 f2
    simp [llamaquery]
  · intro env dep body t tp f h
    rcases body with _ | ty | data
    · simp [llamaquery] at h
    · simp [llamaquery] at h
    · cases hq : pyTruthy data.query
      · simp [llamaquery, hq] at h
      · cases hk1 : pyTruthy env.llama_api_key
        · simp [llamaquery, hq, hk1] at h
        · cases hk2 : pyTruthy env.openai_api_key
          · simp [llamaquery, hq, hk1, hk2] at h
          · rcases hr : dep.route with t' | msg
            · rcases hf : dep.retrieve 0 t' with text | ⟨bt, msg⟩ <;>
                · simp [llamaquery, routerEngineQuery, hq, hk1, hk2, hr, hf] at h
                  exact h.2.2
            · simp [llamaquery, routerEngineQuery, hq, hk1, hk2, hr] at h

/-- C7 witness: the amended theorem applied to concrete filter payloads
and to the retrieval call of a concrete request. -/
theorem c7_witness :
    llamaquery envOK depOK (.obj spacedFilterBody) =
      llamaquery envOK depOK (.obj ⟨some "What is the deal size?", none⟩) ∧
    (none : Option (List FilterPredicate)) = none :=
  ⟨c7_filters_ignored.1 envOK depOK (some "What is the deal size?")
      (some [⟨some "company", some "Blue Ocean", some "eq"⟩]) none,
   c7_filters_ignored.2 envOK depOK (.obj okBody) "thematic" clientTimeout
      none (by decide)⟩

/-- Did the handler return a response (rather than let an exception
escape to the transport layer)? -/
def HandlerResult.isReturned : HandlerResult → Bool
  | .escaped _ => false
  | .returned _ => true

/-- C8 counterexample: a request whose body is not valid JSON makes
`await request.json()` (line 41) raise, and a request whose body is
valid JSON but not an object (e.g. the list `[1,2,3]`) survives the
parse and then makes `data.get("query")` (line 42) raise
`AttributeError`; both lines are outside the `try` block (which only
starts at line 56), so in both cases the exception escapes the endpoint
handler unhandled instead of being converted into an error-shaped
response. -/
theorem c8_counterexample :
    llamaquery envOK depOK .invalid =
      (.escaped "JSONDecodeError: request body is not valid JSON", []) ∧
    llamaquery envOK depOK (.nonObject "list") =
      (.escaped
        "AttributeError: \x27list\x27 object has no attribute \x27get\x27",
       []) ∧
    (llamaquery envOK depOK .invalid).1.isReturned = false ∧
    (llamaquery envOK depOK (.nonObject "list")).1.isReturned = false := by
  decide

/-- C8 amended: for every request whose body parses as a JSON object,
every failure is caught inside the handler and converted into a returned
response; a body that is not valid JSON, or that is valid JSON but not
an object, makes a pre-`try` line (the body parse at line 41, or
`data.get` at line 42) raise an exception that escapes the handler to
the transport layer. -/
theorem c8_escape_boundary :
    (∀ (env : Env) (dep : DepBehavior) (b : Body),
      (llamaquery env dep (.obj b)).1.isReturned = true) ∧
    (∀ (env : Env) (dep : DepBehavior),
      (llamaquery env dep .invalid).1.isReturned = false) ∧
    (∀ (env : Env) (dep : DepBehavior) (ty : String),
      (llamaquery env dep (.nonObject ty)).1.isReturned = false) := by
  refine ⟨?_, ?_, ?_⟩
  · intro env dep b
    cases hq : pyTruthy b.query
    · simp [llamaquery, hq, HandlerResult.isReturned]
    · cases hk1 : pyTruthy env.llama_api_key
      · simp [llamaquery, hq, hk1, HandlerResult.isReturned]
      · cases hk2 : pyTruthy env.openai_api_key
        · simp [llamaquery, hq, hk1, hk2, HandlerResult.isReturned]
        · rcases hr : dep.route with t | msg
          · rcases hf : dep.retrieve 0 t with text | ⟨bt, msg⟩ <;>
              · simp [llamaquery, routerEngineQuery, hq, hk1, hk2, hr, hf,
                  HandlerResult.isReturned]
          · simp [llamaquery, routerEngineQuery, hq, hk1, hk2, hr,
              HandlerResult.isReturned]
  · intro env dep
    simp [llamaquery, HandlerResult.isReturned]
  · intro env dep ty
    simp [llamaquery, HandlerResult.isReturned]

/-- C9 counterexample: a concrete request's trace contains the write to
the process-wide `Settings.llm` (line 79) and the mid-request reads of
the API-key environment variables (lines 47-48): the handler does mutate
process-wide state and does re-read configuration during the request. -/
theorem c9_counterexample :
    Event.settingsLlmWrite "gpt-4o-mini" ∈
      (llamaquery envOK depOK (.obj okBody)).2 ∧
    Event.getenv "LLAMA_API_KEY" ∈ (llamaquery envOK depOK (.obj okBody)).2 ∧
    Event.getenv "OPENAI_API_KEY" ∈ (llamaquery envOK depOK (.obj okBody)).2 := by
  decide

/-- C9 amended: every request with a non-empty query re-reads both
API-key environment variables during handling — whether or not the keys
are set — and every such request that also passes the credential check
assigns the process-wide `Settings.llm`; the configuration shared
between concurrent requests is therefore read and written per-request,
not read-only after startup. -/
theorem c9_mutates_process_state :
    (∀ (env : Env) (dep : DepBehavior) (b : Body) (q : String),
      b.query = some q → q ≠ "" →
      Event.getenv "LLAMA_API_KEY" ∈ (llamaquery env dep (.obj b)).2 ∧
      Event.getenv "OPENAI_API_KEY" ∈ (llamaquery env dep (.obj b)).2) ∧
    (∀ (env : Env) (dep : DepBehavior) (b : Body) (q : String),
      b.query = some q → q ≠ "" →
      pyTruthy env.llama_api_key = true →
      pyTruthy env.openai_api_key = true →
      Event.settingsLlmWrite "gpt-4o-mini" ∈
        (llamaquery env dep (.obj b)).2) := by
  constructor
  · intro env dep b q hq hqne
    have hqt := pyTruthy_some_of_ne hqne
    cases hk1 : pyTruthy env.llama_api_key
    · simp [llamaquery, hq, hqt, hk1]
    · cases hk2 : pyTruthy env.openai_api_key
      · simp [llamaquery, hq, hqt, hk1, hk2]
      · rcases hr : dep.route with t | msg
        · rcases hf : dep.retrieve 0 t with text | ⟨bt, msg⟩ <;>
            · simp [llamaquery, routerEngineQuery, hq, hqt, hk1, hk2, hr, hf]
        · simp [llamaquery, routerEngineQuery, hq, hqt, hk1, hk2, hr]
  · intro env dep b q hq hqne hk1 hk2
    have hqt := pyTruthy_some_of_ne hqne
    rcases hr : dep.route with t | msg
    · rcases hf : dep.retrieve 0 t with text | ⟨bt, msg⟩ <;>
        · simp [llamaquery, routerEngineQuery, hq, hqt, hk1, hk2, hr, hf]
    · simp [llamaquery, routerEngineQuery, hq, hqt, hk1, hk2, hr]

/-- C9 witness: the amended theorem applied to concrete requests — the
environment re-read part at an environment whose LLAMA_API_KEY is unset,
and the `Settings.llm`-write part at a fully configured request. -/
theorem c9_witness :
    (Event.getenv "LLAMA_API_KEY" ∈
        (llamaquery envMissingKey depOK (.obj okBody)).2 ∧
      Event.getenv "OPENAI_API_KEY" ∈
        (llamaquery envMissingKey depOK (.obj okBody)).2) ∧
    Event.settingsLlmWrite "gpt-4o-mini" ∈
      (llamaquery envOK depOK (.obj okBody)).2 :=
  ⟨c9_mutates_process_state.1 envMissingKey depOK okBody
      "What is the deal size?" rfl (by decide),
   c9_mutates_process_state.2 envOK depOK okBody
      "What is the deal size?" rfl (by decide) rfl rfl⟩

/-- C10: (a) a request with a non-empty query but a missing or empty
LLAMA_API_KEY or OPENAI_API_KEY returns the environment error with a
trace containing only the two environment reads — zero retrieval/routing
dependency calls, so no remote call was made; (b) when the dependency
response's metadata lacks the selection entry, the request still succeeds
and the `selected_index` field is the string "Unknown". -/
theorem c10_env_guard_and_unknown_default :
    (∀ (env : Env) (dep : DepBehavior) (b : Body) (q : String),
      b.query = some q → q ≠ "" →
      (pyTruthy env.llama_api_key = false ∨
        pyTruthy env.openai_api_key = false) →
      llamaquery env dep (.obj b) =
        (.returned
           (.error "Missing LLAMA_API_KEY or OPENAI_API_KEY in environment"),
         [.getenv "LLAMA_API_KEY", .getenv "OPENAI_API_KEY"]) ∧
      dependencyCallCount (llamaquery env dep (.obj b)).2 = 0) ∧
    (∀ (env : Env) (dep : DepBehavior) (b : Body) (q t text : String),
      b.query = some q → q ≠ "" →
      pyTruthy env.llama_api_key = true →
      pyTruthy env.openai_api_key = true →
      dep.route = .selected t → dep.retrieve 0 t = .ok text →
      dep.reportsSelection = false →
      (llamaquery env dep (.obj b)).1 =
        .returned (.success q "Unknown" (pyStrip text) ⟨none⟩)) := by
  constructor
  · intro env dep b q hq hqne hk
    rcases hk with hk | hk <;>
      simp [llamaquery, hq, pyTruthy_some_of_ne hqne, hk,
        dependencyCallCount, isDependencyCall]
  · intro env dep b q t text hq hqne hk1 hk2 hr hok hrep
    simp [llamaquery, routerEngineQuery, hq, pyTruthy_some_of_ne hqne, hk1,
      hk2, hr, hok, hrep]

/-- C10 witness: the theorem applied to a concrete unset-key environment
and to a concrete dependency that omits the selection metadata. -/
theorem c10_witness :
    (llamaquery envMissingKey depOK (.obj okBody) =
      (.returned
         (.error "Missing LLAMA_API_KEY or OPENAI_API_KEY in environment"),
       [.getenv "LLAMA_API_KEY", .getenv "OPENAI_API_KEY"]) ∧
     dependencyCallCount (llamaquery envMissingKey depOK (.obj okBody)).2 = 0) ∧
    (llamaquery envOK depNoReport (.obj okBody)).1 =
      .returned (.success "What is the deal size?" "Unknown"
        (pyStrip "Deal is 5M.") ⟨none⟩) :=
  ⟨c10_env_guard_and_unknown_default.1 envMissingKey depOK okBody
      "What is the deal size?" rfl (by decide) (Or.inl rfl),
   c10_env_guard_and_unknown_default.2 envOK depNoReport okBody
      "What is the deal size?" "deals" "Deal is 5M."
      rfl (by decide) rfl rfl rfl rfl rfl⟩

end LlamaQueryApi
